import Mathlib

/-!
Shallow embedding of the two operational scripts of this repository:
`trigger-scheduled-restore.py` (payload construction for an immediate restore)
and `run_schedules.py` (policy invocation and the recent-jobs scan).

Python dictionaries are modelled as association lists with first-match lookup
(`pyGet`) and Python-style assignment (`pySet`: update in place if the key is
present, append otherwise).  JSON-like values are the inductive `JVal`;
Python truthiness is `truthy`.  Configuration constants that the user is meant
to edit (`OVERRIDES`, `USER`) become explicit parameters.  Network calls are
out of scope: the functions under verification are the pure transformations
the scripts perform on already-fetched documents.
-/

/-- JSON-like values appearing in the documents the scripts manipulate. -/
inductive JVal where
  | vStr (s : String)
  | vBool (b : Bool)
  | vNum (n : Int)
  | vList (l : List JVal)
  | vDict (d : List (String × JVal))

/-- Python truthiness of a `JVal` (empty string/list/dict, `False`, `0` are falsy). -/
def truthy : JVal → Bool
  | JVal.vStr s => decide (s ≠ "")
  | JVal.vBool b => b
  | JVal.vNum n => decide (n ≠ 0)
  | JVal.vList l => !l.isEmpty
  | JVal.vDict d => !d.isEmpty

/-- `d.get(k)`: first-match lookup in an association list (Python dict lookup). -/
def pyGet {α : Type} : List (String × α) → String → Option α
  | [], _ => none
  | (k', v) :: rest, k => if k' = k then some v else pyGet rest k

/-- `d[k] = v`: replace the value at `k` if present, else append `(k, v)`. -/
def pySet {α : Type} (d : List (String × α)) (k : String) (v : α) : List (String × α) :=
  if (pyGet d k).isSome then d.map (fun p => if p.1 = k then (k, v) else p)
  else d ++ [(k, v)]

theorem pyGet_nil {α : Type} (k : String) : pyGet ([] : List (String × α)) k = none := rfl

theorem pyGet_cons {α : Type} (k' k : String) (v : α) (d : List (String × α)) :
    pyGet ((k', v) :: d) k = if k' = k then some v else pyGet d k := rfl

theorem pyGet_append {α : Type} (d₁ d₂ : List (String × α)) (k : String) :
    pyGet (d₁ ++ d₂) k = ((pyGet d₁ k).map some).getD (pyGet d₂ k) := by
  induction d₁ with
  | nil => simp [pyGet]
  | cons hd tl ih =>
    obtain ⟨k', v⟩ := hd
    by_cases h : k' = k <;> simp [pyGet, h, ih]

theorem pyGet_mapSet_self {α : Type} (d : List (String × α)) (k : String) (v : α)
    (h : (pyGet d k).isSome) :
    pyGet (d.map (fun p => if p.1 = k then (k, v) else p)) k = some v := by
  induction d with
  | nil => simp [pyGet] at h
  | cons hd tl ih =>
    obtain ⟨k', w⟩ := hd
    rw [List.map_cons]
    by_cases hk : k' = k
    · have he : (if (k', w).1 = k then (k, v) else (k', w)) = (k, v) := by simp [hk]
      rw [he, pyGet_cons, if_pos rfl]
    · have he : (if (k', w).1 = k then (k, v) else (k', w)) = (k', w) := by simp [hk]
      rw [pyGet_cons, if_neg hk] at h
      rw [he, pyGet_cons, if_neg hk]
      exact ih h

theorem pyGet_mapSet_ne {α : Type} (d : List (String × α)) (k : String) (v : α)
    (k' : String) (h : k' ≠ k) :
    pyGet (d.map (fun p => if p.1 = k then (k, v) else p)) k' = pyGet d k' := by
  induction d with
  | nil => simp [pyGet]
  | cons hd tl ih =>
    obtain ⟨a, b⟩ := hd
    rw [List.map_cons]
    by_cases ha : a = k
    · have he : (if (a, b).1 = k then (k, v) else (a, b)) = (k, v) := by simp [ha]
      have hk' : ¬(k = k') := fun hkk => h hkk.symm
      have ha' : ¬(a = k') := by rw [ha]; exact hk'
      rw [he, pyGet_cons, if_neg hk', pyGet_cons, if_neg ha']
      exact ih
    · have he : (if (a, b).1 = k then (k, v) else (a, b)) = (a, b) := by simp [ha]
      by_cases ha' : a = k'
      · rw [he, pyGet_cons, if_pos ha', pyGet_cons, if_pos ha']
      · rw [he, pyGet_cons, if_neg ha', pyGet_cons, if_neg ha']
        exact ih

theorem pyGet_pySet_self {α : Type} (d : List (String × α)) (k : String) (v : α) :
    pyGet (pySet d k v) k = some v := by
  unfold pySet
  by_cases h : (pyGet d k).isSome
  · rw [if_pos h]
    exact pyGet_mapSet_self d k v h
  · rw [if_neg h, pyGet_append]
    rw [Option.not_isSome_iff_eq_none] at h
    simp [h, pyGet]

theorem pyGet_pySet_ne {α : Type} (d : List (String × α)) (k : String) (v : α)
    (k' : String) (h : k' ≠ k) :
    pyGet (pySet d k v) k' = pyGet d k' := by
  unfold pySet
  by_cases hs : (pyGet d k).isSome
  · rw [if_pos hs]
    exact pyGet_mapSet_ne d k v k' h
  · rw [if_neg hs, pyGet_append]
    have : k ≠ k' := fun hkk => h hkk.symm
    cases hg : pyGet d k' <;> simp [pyGet, hg, this]

/-!
## Embedding of `trigger-scheduled-restore.py`

The schedule-properties document returned by `GET /Schedules/{taskId}` is
modelled by `Props`/`TaskInfo`/`SubTaskEntry`.  The user-edited `OVERRIDES`
dictionary is the `Overrides` record: the script only ever reads the three
keys `destination`, `overwriteFiles` and `restoreACLsType`; an absent key and
a key set to Python `None` behave identically in the script, so both are
modelled as `none`.
-/

/-- Restore options: the `restoreOptions` dictionary of a subtask. -/
abbrev ROpts : Type := List (String × JVal)

/-- An association object (`taskInfo.associations[i]`), an arbitrary dictionary. -/
abbrev Assoc : Type := List (String × JVal)

/-- The `subTask` header of a subtask entry (`st["subTask"]`). -/
structure SubTaskHdr where
  operationType : Option String
  subTaskType : Option String

/-- The `options` block of a subtask entry (`st["options"]`). -/
structure SubTaskOptionsBlock where
  restoreOptions : Option ROpts

/-- One element of `taskInfo.subTasks`; either sub-dictionary may be absent. -/
structure SubTaskEntry where
  subTask : Option SubTaskHdr
  options : Option SubTaskOptionsBlock

/-- The `taskInfo` block of the schedule-properties document. -/
structure TaskInfo where
  associations : Option (List Assoc)
  subTasks : Option (List SubTaskEntry)

/-- A schedule-properties document (`props`). -/
structure Props where
  taskInfo : Option TaskInfo

/-- The user-edited `OVERRIDES` configuration dictionary. -/
structure Overrides where
  destination : Option JVal
  overwriteFiles : Option JVal
  restoreACLsType : Option JVal

/-- `props.get("taskInfo", {})`. -/
def taskInfoOf (props : Props) : TaskInfo :=
  props.taskInfo.getD ⟨none, none⟩

/-- `ti.get("associations", [])`. -/
def associationsOf (props : Props) : List Assoc :=
  (taskInfoOf props).associations.getD []

/-- `ti.get("subTasks", [])`. -/
def subTasksOf (props : Props) : List SubTaskEntry :=
  (taskInfoOf props).subTasks.getD []

/-- `st.get("subTask", {})`. -/
def subHdrOf (st : SubTaskEntry) : SubTaskHdr :=
  st.subTask.getD ⟨none, none⟩

/-- Whether a subtask entry is a RESTORE subtask:
`subtask.get("operationType") == "RESTORE" or subtask.get("subTaskType") == "RESTORE"`. -/
def isRestoreSub (st : SubTaskEntry) : Bool :=
  decide ((subHdrOf st).operationType = some "RESTORE"
    ∨ (subHdrOf st).subTaskType = some "RESTORE")

/-- `st.get("options", {}).get("restoreOptions", {})`. -/
def restoreOptionsOf (st : SubTaskEntry) : ROpts :=
  match st.options with
  | none => []
  | some ob => ob.restoreOptions.getD []

/-- The `for st in sub_tasks: ... break` loop: restore options of the first
RESTORE subtask, `{}` if there is none. -/
def find_restore_opts : List SubTaskEntry → ROpts
  | [] => []
  | st :: rest => if isRestoreSub st then restoreOptionsOf st else find_restore_opts rest

/-- The override-merging block of `build_restore_payload`: start from a copy of
the schedule's restore options, set `destination` if the override is truthy,
then set each of `overwriteFiles`, `restoreACLsType` that is not `None`. -/
def apply_overrides (ov : Overrides) (restore_opts : ROpts) : ROpts :=
  let m1 : ROpts :=
    match ov.destination with
    | some v => if truthy v then pySet restore_opts "destination" v else restore_opts
    | none => restore_opts
  let m2 : ROpts :=
    match ov.overwriteFiles with
    | some v => pySet m1 "overwriteFiles" v
    | none => m1
  match ov.restoreACLsType with
  | some v => pySet m2 "restoreACLsType" v
  | none => m2

/-- `is_in_place_restore`: `not restore_opts.get("destination")`. -/
def is_in_place_restore (restore_opts : ROpts) : Bool :=
  match pyGet restore_opts "destination" with
  | none => true
  | some v => !truthy v

/-- Error message for a schedule without associations. -/
def noAssocMsg : String := "Schedule has no associations; cannot build restore request."

/-- Error message of the destination sanity check. -/
def destMissingMsg : String :=
  "Destination missing and schedule does not appear to be in-place."

/-- A normalized association entry: the fixed five fields, each `a.get(k)`. -/
abbrev AssocOut : Type := List (String × Option JVal)

/-- The dictionary appended per association by `normalize_associations`:
the fixed five fields, each `a.get(k)`. -/
def normalizeAssoc (a : Assoc) : AssocOut :=
  [("clientName", pyGet a "clientName"),
   ("appName", pyGet a "appName"),
   ("instanceId", pyGet a "instanceId"),
   ("backupsetId", pyGet a "backupsetId"),
   ("subclientId", pyGet a "subclientId")]

/-- `normalize_associations`: reduce each association to the fixed field subset. -/
def normalize_associations (associations : List Assoc) : List AssocOut :=
  associations.map normalizeAssoc

/-- The fixed `task` header of the payload (`initiatedFrom`, `taskType`,
`policyType`, `taskFlags.disabled`). -/
structure TaskHeader where
  initiatedFrom : String
  taskType : Nat
  policyType : String
  disabled : Bool

/-- The constant task header used by the script. -/
def taskHeaderConst : TaskHeader :=
  { initiatedFrom := "COMMANDLINE", taskType := 0,
    policyType := "DATA_PROTECTION", disabled := false }

/-- The single subtask the payload carries. -/
structure SubTaskOut where
  subTaskType : String
  operationType : String
  restoreOptions : ROpts

/-- The CreateTask payload built by `build_restore_payload`. -/
structure Payload where
  task : TaskHeader
  associations : List AssocOut
  subTasks : List SubTaskOut

/-- `build_restore_payload(props)` with the `OVERRIDES` configuration made
explicit.  Raising `RuntimeError` is modelled as `Except.error`. -/
def build_restore_payload (ov : Overrides) (props : Props) : Except String Payload :=
  if (associationsOf props).isEmpty then Except.error noAssocMsg
  else if truthy ((pyGet (apply_overrides ov (find_restore_opts (subTasksOf props)))
          "destination").getD (JVal.vDict [])) = false
      ∧ is_in_place_restore (apply_overrides ov (find_restore_opts (subTasksOf props))) = false
    then Except.error destMissingMsg
  else Except.ok
    { task := taskHeaderConst
      associations := normalize_associations (associationsOf props)
      subTasks := [{ subTaskType := "RESTORE", operationType := "RESTORE",
                     restoreOptions :=
                       apply_overrides ov (find_restore_opts (subTasksOf props)) }] }

/-- The merged restore options carried inside a payload (its single subtask). -/
def payload_restore_opts (p : Payload) : ROpts :=
  ((p.subTasks.head?).map SubTaskOut.restoreOptions).getD []

/-!
## Embedding of `run_schedules.py`

The SDK session is modelled as an oracle record: `hasPolicy`/`runNowByName`
for `run_by_names`, `getPolicy`/`runNowById` for `run_by_task_ids` (an
exception raised by the SDK call becomes `Except.error`).  Each loop
iteration prints exactly one line; the printed lines are the `RunEvent` list
the functions return.  The configured `USER` becomes an explicit parameter of
`list_recent_jobs`; times are epoch seconds (`Int`).
-/

/-- One console line produced per processed item. -/
inductive RunEvent where
  | okRun (label : String) (jobIds : List Nat)
  | warnMissing (label : String)
  | errRun (label : String) (msg : String)
  deriving DecidableEq

/-- Oracle for `SchedulePolicies` lookups by name and `policy.run_now()`. -/
structure PolicyEnv where
  hasPolicy : String → Bool
  runNowByName : String → Except String (List Nat)

/-- Oracle for `SchedulePolicies.get(task_id)` (which may raise) and
`policy.run_now()` keyed by task id. -/
structure TaskEnv where
  getPolicy : Nat → Except String Unit
  runNowById : Nat → Except String (List Nat)

/-- The body of the `for name in names` loop of `run_by_names`. -/
def runOneName (env : PolicyEnv) (name : String) : RunEvent :=
  if env.hasPolicy name = false then RunEvent.warnMissing name
  else
    match env.runNowByName name with
    | Except.ok ids => RunEvent.okRun name ids
    | Except.error e => RunEvent.errRun name e

/-- `run_by_names`: process every configured name, one console line each. -/
def run_by_names (env : PolicyEnv) : List String → List RunEvent
  | [] => []
  | name :: rest =>
    (if env.hasPolicy name = false then RunEvent.warnMissing name
     else
       match env.runNowByName name with
       | Except.ok ids => RunEvent.okRun name ids
       | Except.error e => RunEvent.errRun name e) :: run_by_names env rest

/-- The body of the `for task_id in ids` loop of `run_by_task_ids`. -/
def runOneTask (env : TaskEnv) (task_id : Nat) : RunEvent :=
  match env.getPolicy task_id with
  | Except.error _ => RunEvent.warnMissing (toString task_id)
  | Except.ok _ =>
    match env.runNowById task_id with
    | Except.ok ids => RunEvent.okRun (toString task_id) ids
    | Except.error e => RunEvent.errRun (toString task_id) e

/-- `run_by_task_ids`: process every configured task id, one console line each. -/
def run_by_task_ids (env : TaskEnv) : List Nat → List RunEvent
  | [] => []
  | task_id :: rest =>
    (match env.getPolicy task_id with
     | Except.error _ => RunEvent.warnMissing (toString task_id)
     | Except.ok _ =>
       match env.runNowById task_id with
       | Except.ok ids => RunEvent.okRun (toString task_id) ids
       | Except.error e => RunEvent.errRun (toString task_id) e) :: run_by_task_ids env rest

/-- `RECENT_WINDOW_MINUTES = 3`. -/
def RECENT_WINDOW_MINUTES : Int := 3

/-- One entry of the `all_jobs` dictionary; fields the scan reads. -/
structure JobDetails where
  submitTime : Option JVal
  startTime : Option JVal
  userName : Option String
  user : Option String
  status : Option String

/-- Python `a or b` on two optional values (`None` and falsy fall through). -/
def pyOrVal (a b : Option JVal) : Option JVal :=
  match a with
  | some v => if truthy v then some v else b
  | none => b

/-- Python `a or b` on two optional strings (`None` and `""` fall through). -/
def pyOrStr (a b : Option String) : Option String :=
  match a with
  | some s => if s = "" then b else some s
  | none => b

/-- `details.get("submitTime") or details.get("startTime")`. -/
def submit_time_raw (d : JobDetails) : Option JVal :=
  pyOrVal d.submitTime d.startTime

/-- The normalized submit time: `datetime.fromtimestamp(submit_time)` when
`isinstance(submit_time, (int, float))` (Python `bool` is an `int`), else `None`. -/
def submitted_of (d : JobDetails) : Option Int :=
  match submit_time_raw d with
  | some (JVal.vNum n) => some n
  | some (JVal.vBool b) => some (if b then 1 else 0)
  | _ => none

/-- `(details.get("userName") or details.get("user") or "").lower()`. -/
def user_of (d : JobDetails) : String :=
  ((pyOrStr d.userName d.user).getD "").toLower

/-- Python's substring test `needle in hay`. -/
def strContains (hay needle : String) : Bool :=
  decide (List.IsInfix needle.toList hay.toList)

/-- The loop body of the recent-jobs scan: `some` exactly when the entry is
kept (`submitted and submitted >= cutoff and USER.lower() in user`), carrying
the `(jid, submitted, status)` tuple that gets collected. -/
def selectJob (u : String) (now : Int) (e : Nat × JobDetails) :
    Option (Nat × Int × Option String) :=
  match submitted_of e.2 with
  | some t =>
    if t ≥ now - RECENT_WINDOW_MINUTES * 60 ∧ strContains (user_of e.2) u.toLower = true
    then some (e.1, t, e.2.status) else none
  | none => none

/-- `list_recent_jobs` with the configured `USER` and the current time made
explicit: filter the job list, then `recent.sort(key=lambda x: x[1])`
(a stable sort by submit time, modelled by `List.mergeSort`). -/
def list_recent_jobs (u : String) (now : Int) (jobs : List (Nat × JobDetails)) :
    List (Nat × Int × Option String) :=
  (jobs.filterMap (selectJob u now)).mergeSort (fun a b => decide (a.2.1 ≤ b.2.1))

/-!
## Helper lemmas
-/

/-- The destination sanity check of `build_restore_payload` can never fire:
`is_in_place_restore` is defined as exactly the absence/falsiness of the
destination, so `not dest and not is_in_place_restore(...)` is contradictory. -/
theorem sanity_condition_false (m : ROpts) :
    ¬(truthy ((pyGet m "destination").getD (JVal.vDict [])) = false
      ∧ is_in_place_restore m = false) := by
  rintro ⟨h1, h2⟩
  unfold is_in_place_restore at h2
  cases hg : pyGet m "destination" with
  | none => rw [hg] at h2; exact Bool.true_eq_false ▸ h2
  | some v =>
    rw [hg] at h1 h2
    simp only [Option.getD_some] at h1
    simp only [h1, Bool.not_false] at h2
    exact Bool.true_eq_false ▸ h2

/-- When the associations list is non-empty, `build_restore_payload` always
returns the payload built from the merged options of the first RESTORE
subtask (the sanity check being unreachable). -/
theorem build_restore_payload_ok (ov : Overrides) (props : Props)
    (h : (associationsOf props).isEmpty = false) :
    build_restore_payload ov props = Except.ok
      { task := taskHeaderConst
        associations := normalize_associations (associationsOf props)
        subTasks := [{ subTaskType := "RESTORE", operationType := "RESTORE",
                       restoreOptions :=
                         apply_overrides ov (find_restore_opts (subTasksOf props)) }] } := by
  unfold build_restore_payload
  rw [if_neg (by rw [h]; exact Bool.false_ne_true)]
  rw [if_neg (sanity_condition_false _)]

/-- A configured, truthy destination override ends up in the merged options. -/
theorem apply_overrides_dest (ov : Overrides) (ro : ROpts) (v : JVal)
    (h : ov.destination = some v) (ht : truthy v = true) :
    pyGet (apply_overrides ov ro) "destination" = some v := by
  unfold apply_overrides
  rw [h]
  simp only [ht, if_true]
  have base : pyGet (pySet ro "destination" v) "destination" = some v :=
    pyGet_pySet_self ro "destination" v
  cases how : ov.overwriteFiles <;> cases hacl : ov.restoreACLsType <;>
    simp only [] <;>
    first
    | exact base
    | (rw [pyGet_pySet_ne _ _ _ _ (by decide)]; exact base)
    | (rw [pyGet_pySet_ne _ _ _ _ (by decide), pyGet_pySet_ne _ _ _ _ (by decide)]; exact base)

/-- A configured `overwriteFiles` override ends up in the merged options. -/
theorem apply_overrides_ow (ov : Overrides) (ro : ROpts) (v : JVal)
    (h : ov.overwriteFiles = some v) :
    pyGet (apply_overrides ov ro) "overwriteFiles" = some v := by
  unfold apply_overrides
  rw [h]
  cases hacl : ov.restoreACLsType <;> simp only []
  · exact pyGet_pySet_self _ _ _
  · rw [pyGet_pySet_ne _ _ _ _ (by decide)]
    exact pyGet_pySet_self _ _ _

/-- A configured `restoreACLsType` override ends up in the merged options. -/
theorem apply_overrides_acl (ov : Overrides) (ro : ROpts) (v : JVal)
    (h : ov.restoreACLsType = some v) :
    pyGet (apply_overrides ov ro) "restoreACLsType" = some v := by
  unfold apply_overrides
  rw [h]
  exact pyGet_pySet_self _ _ _

/-- Keys other than the three override keys are untouched by the merge. -/
theorem apply_overrides_other (ov : Overrides) (ro : ROpts) (k : String)
    (h1 : k ≠ "destination") (h2 : k ≠ "overwriteFiles") (h3 : k ≠ "restoreACLsType") :
    pyGet (apply_overrides ov ro) k = pyGet ro k := by
  unfold apply_overrides
  cases hd : ov.destination <;> cases how : ov.overwriteFiles <;>
    cases hacl : ov.restoreACLsType <;>
    simp only [] <;>
    first
    | rfl
    | (repeat' first
        | rw [pyGet_pySet_ne _ _ _ _ h1]
        | rw [pyGet_pySet_ne _ _ _ _ h2]
        | rw [pyGet_pySet_ne _ _ _ _ h3]
        | (split
           · rw [pyGet_pySet_ne _ _ _ _ h1]
           · rfl)
        | rfl)

/-- `find_restore_opts` returns the options of the first RESTORE subtask. -/
theorem find_restore_opts_first (pre : List SubTaskEntry) (st : SubTaskEntry)
    (post : List SubTaskEntry)
    (hpre : ∀ s ∈ pre, isRestoreSub s = false) (hst : isRestoreSub st = true) :
    find_restore_opts (pre ++ st :: post) = restoreOptionsOf st := by
  induction pre with
  | nil => simp [find_restore_opts, hst]
  | cons hd tl ih =>
    have hhd : isRestoreSub hd = false := hpre hd (List.mem_cons_self hd tl)
    simp only [List.cons_append, find_restore_opts, hhd, Bool.false_eq_true, if_false]
    exact ih (fun s hs => hpre s (List.mem_cons_of_mem hd hs))

/-- With no RESTORE subtask at all, `find_restore_opts` yields `{}`. -/
theorem find_restore_opts_none (l : List SubTaskEntry)
    (h : ∀ s ∈ l, isRestoreSub s = false) :
    find_restore_opts l = [] := by
  induction l with
  | nil => rfl
  | cons hd tl ih =>
    have hhd : isRestoreSub hd = false := h hd (List.mem_cons_self hd tl)
    simp only [find_restore_opts, hhd, Bool.false_eq_true, if_false]
    exact ih (fun s hs => h s (List.mem_cons_of_mem hd hs))

/-- Every entry of `pySet d k v` is either the assigned pair or an entry of `d`. -/
theorem mem_pySet {α : Type} (d : List (String × α)) (k : String) (v : α)
    (p : String × α) (h : p ∈ pySet d k v) : p = (k, v) ∨ p ∈ d := by
  unfold pySet at h
  split at h
  · obtain ⟨q, hq, hfq⟩ := List.mem_map.mp h
    by_cases hqk : q.1 = k
    · left; rw [← hfq]; simp [hqk]
    · right
      rw [← hfq]
      simpa [hqk] using hq
  · rcases List.mem_append.mp h with h1 | h1
    · right; exact h1
    · left; simpa using h1

/-- Starting from empty schedule options, every merged entry is one of the
three configured override fields with the override's value. -/
theorem apply_overrides_nil_mem (ov : Overrides) (k : String) (v : JVal)
    (h : (k, v) ∈ apply_overrides ov []) :
    (k = "destination" ∧ ov.destination = some v)
    ∨ (k = "overwriteFiles" ∧ ov.overwriteFiles = some v)
    ∨ (k = "restoreACLsType" ∧ ov.restoreACLsType = some v) := by
  unfold apply_overrides at h
  rcases hdst : ov.destination with _ | dv <;> rw [hdst] at h <;>
    rcases how : ov.overwriteFiles with _ | wv <;> rw [how] at h <;>
    rcases hacl : ov.restoreACLsType with _ | av <;> rw [hacl] at h <;>
    simp only [] at h
  all_goals
    repeat
      first
      | exact absurd h (List.not_mem_nil _)
      | (rcases mem_pySet _ _ _ _ h with he | h
         · rcases Prod.mk.injEq .. ▸ he with ⟨hk, hv⟩
           subst hk; subst hv
           simp)
      | (split at h
         · rcases mem_pySet _ _ _ _ h with he | h
           · rcases Prod.mk.injEq .. ▸ he with ⟨hk, hv⟩
             subst hk; subst hv
             simp
           · exact absurd h (List.not_mem_nil _)
         · exact absurd h (List.not_mem_nil _))

/-- Extending the job list by an entry the scan drops leaves the output
unchanged. -/
theorem list_recent_jobs_erase (u : String) (now : Int) (jid : Nat) (d : JobDetails)
    (l₁ l₂ : List (Nat × JobDetails)) (h : selectJob u now (jid, d) = none) :
    list_recent_jobs u now (l₁ ++ (jid, d) :: l₂) = list_recent_jobs u now (l₁ ++ l₂) := by
  unfold list_recent_jobs
  rw [List.filterMap_append, List.filterMap_append, List.filterMap_cons_none h]

/-- `run_by_names` unfolds to its loop body. -/
theorem run_by_names_cons (env : PolicyEnv) (name : String) (rest : List String) :
    run_by_names env (name :: rest) = runOneName env name :: run_by_names env rest := rfl

/-- `run_by_task_ids` unfolds to its loop body. -/
theorem run_by_task_ids_cons (env : TaskEnv) (task_id : Nat) (rest : List Nat) :
    run_by_task_ids env (task_id :: rest) = runOneTask env task_id :: run_by_task_ids env rest := rfl

/-!
## Claim theorems
-/

/-- Claim C1 (code behavior at the failing input): a schedule-properties
document with one association, no subtasks (hence no destination anywhere in
the merged restore options) and no destination override does NOT make
`build_restore_payload` raise: the crude in-place heuristic (`not dest`)
makes the sanity condition `not dest and not is_in_place_restore(...)`
unsatisfiable, so a payload with empty restore options is returned. -/
theorem claim_C1_no_abort_on_missing_destination :
    build_restore_payload ⟨none, none, none⟩
        ⟨some ⟨some [[("clientName", JVal.vStr "client01")]], some []⟩⟩ =
      Except.ok
        { task := taskHeaderConst
          associations := [[("clientName", some (JVal.vStr "client01")), ("appName", none),
            ("instanceId", none), ("backupsetId", none), ("subclientId", none)]]
          subTasks := [{ subTaskType := "RESTORE", operationType := "RESTORE",
                         restoreOptions := [] }] }
    ∧ pyGet (payload_restore_opts
        { task := taskHeaderConst
          associations := [[("clientName", some (JVal.vStr "client01")), ("appName", none),
            ("instanceId", none), ("backupsetId", none), ("subclientId", none)]]
          subTasks := [{ subTaskType := "RESTORE", operationType := "RESTORE",
                         restoreOptions := [] }] }) "destination" = none :=
  ⟨rfl, rfl⟩

/-- Claim C6: a schedule-properties document whose associations list is
missing or empty makes `build_restore_payload` raise the fatal
no-associations error, producing no payload. -/
theorem claim_C6_missing_associations_abort (ov : Overrides) (props : Props)
    (h : associationsOf props = []) :
    build_restore_payload ov props = Except.error noAssocMsg := by
  unfold build_restore_payload
  rw [h]
  rfl

/-- Witness for C6 at a document with no `taskInfo` at all. -/
theorem claim_C6_witness :
    build_restore_payload ⟨none, none, none⟩ ⟨none⟩ = Except.error noAssocMsg :=
  claim_C6_missing_associations_abort ⟨none, none, none⟩ ⟨none⟩ rfl

/-- Claim C5: with at least one RESTORE subtask, `build_restore_payload`
extracts the restore-options block of the first such subtask in list order,
and no later subtask's options contribute: the resulting payload depends only
on that subtask's options (the merged options are
`apply_overrides ov (restoreOptionsOf st)`, with `post` absent from the
result). -/
theorem claim_C5_first_restore_subtask_wins (ov : Overrides) (assocs : List Assoc)
    (pre : List SubTaskEntry) (st : SubTaskEntry) (post : List SubTaskEntry)
    (hassoc : assocs ≠ [])
    (hpre : ∀ s ∈ pre, isRestoreSub s = false) (hst : isRestoreSub st = true) :
    build_restore_payload ov ⟨some ⟨some assocs, some (pre ++ st :: post)⟩⟩ =
      Except.ok
        { task := taskHeaderConst
          associations := normalize_associations assocs
          subTasks := [{ subTaskType := "RESTORE", operationType := "RESTORE",
                         restoreOptions := apply_overrides ov (restoreOptionsOf st) }] } := by
  have hne : (associationsOf ⟨some ⟨some assocs, some (pre ++ st :: post)⟩⟩).isEmpty = false := by
    cases assocs with
    | nil => exact absurd rfl hassoc
    | cons a l => rfl
  rw [build_restore_payload_ok ov _ hne]
  have hsub : subTasksOf ⟨some ⟨some assocs, some (pre ++ st :: post)⟩⟩
      = pre ++ st :: post := rfl
  rw [hsub, find_restore_opts_first pre st post hpre hst]
  rfl

/-- Witness for C5: an earlier BACKUP subtask is skipped, the first RESTORE
subtask's options are taken, a later RESTORE subtask is ignored. -/
theorem claim_C5_witness :
    build_restore_payload ⟨none, none, none⟩
        ⟨some ⟨some [[("clientName", JVal.vStr "c1")]],
          some [⟨some ⟨some "BACKUP", none⟩, some ⟨some [("bk", JVal.vNum 9)]⟩⟩,
                ⟨some ⟨some "RESTORE", none⟩, some ⟨some [("inPlace", JVal.vBool true)]⟩⟩,
                ⟨some ⟨some "RESTORE", none⟩, some ⟨some [("later", JVal.vNum 2)]⟩⟩]⟩⟩ =
      Except.ok
        { task := taskHeaderConst
          associations := normalize_associations [[("clientName", JVal.vStr "c1")]]
          subTasks := [{ subTaskType := "RESTORE", operationType := "RESTORE",
                         restoreOptions := apply_overrides ⟨none, none, none⟩
                           (restoreOptionsOf
                             ⟨some ⟨some "RESTORE", none⟩,
                              some ⟨some [("inPlace", JVal.vBool true)]⟩⟩) }] } :=
  claim_C5_first_restore_subtask_wins ⟨none, none, none⟩ [[("clientName", JVal.vStr "c1")]]
    [⟨some ⟨some "BACKUP", none⟩, some ⟨some [("bk", JVal.vNum 9)]⟩⟩]
    ⟨some ⟨some "RESTORE", none⟩, some ⟨some [("inPlace", JVal.vBool true)]⟩⟩
    [⟨some ⟨some "RESTORE", none⟩, some ⟨some [("later", JVal.vNum 2)]⟩⟩]
    (List.cons_ne_nil _ _) (by decide) (by decide)

/-- Claim C3: whenever `build_restore_payload` returns a payload, the merged
restore options inside it contain every configured override key, with the
override value taking precedence over any schedule value (`destination` is
applied when the configured override is truthy; the two flag overrides
whenever configured), and keys outside the three override keys keep the
schedule's value. -/
theorem claim_C3_overrides_take_precedence (ov : Overrides) (props : Props) (p : Payload)
    (h : build_restore_payload ov props = Except.ok p) :
    (∀ v, ov.destination = some v → truthy v = true →
      pyGet (payload_restore_opts p) "destination" = some v)
    ∧ (∀ v, ov.overwriteFiles = some v →
      pyGet (payload_restore_opts p) "overwriteFiles" = some v)
    ∧ (∀ v, ov.restoreACLsType = some v →
      pyGet (payload_restore_opts p) "restoreACLsType" = some v)
    ∧ (∀ k, k ≠ "destination" → k ≠ "overwriteFiles" → k ≠ "restoreACLsType" →
      pyGet (payload_restore_opts p) k = pyGet (find_restore_opts (subTasksOf props)) k) := by
  have hok : ¬((associationsOf props).isEmpty = true) := by
    intro he
    rw [build_restore_payload, if_pos he] at h
    exact Except.noConfusion h
  have hne : (associationsOf props).isEmpty = false := by
    cases hie : (associationsOf props).isEmpty with
    | true => exact absurd hie hok
    | false => rfl
  rw [build_restore_payload_ok ov props hne] at h
  have hp := Except.ok.inj h
  subst hp
  refine ⟨?_, ?_, ?_, ?_⟩
  · intro v hv ht
    exact apply_overrides_dest ov _ v hv ht
  · intro v hv
    exact apply_overrides_ow ov _ v hv
  · intro v hv
    exact apply_overrides_acl ov _ v hv
  · intro k h1 h2 h3
    exact apply_overrides_other ov _ k h1 h2 h3

/-- Witness for C3: a truthy destination override wins over the schedule's
own destination in the merged options. -/
theorem claim_C3_witness :
    pyGet (payload_restore_opts
      { task := taskHeaderConst
        associations := [[("clientName", some (JVal.vStr "c1")), ("appName", none),
          ("instanceId", none), ("backupsetId", none), ("subclientId", none)]]
        subTasks := [{ subTaskType := "RESTORE", operationType := "RESTORE",
                       restoreOptions :=
                         [("destination", JVal.vDict [("destClient", JVal.vStr "target")]),
                          ("overwriteFiles", JVal.vBool true)] }] }) "destination"
      = some (JVal.vDict [("destClient", JVal.vStr "target")]) :=
  (claim_C3_overrides_take_precedence
    ⟨some (JVal.vDict [("destClient", JVal.vStr "target")]), some (JVal.vBool true), none⟩
    ⟨some ⟨some [[("clientName", JVal.vStr "c1")]],
      some [⟨some ⟨some "RESTORE", none⟩,
        some ⟨some [("destination", JVal.vDict [("destClient", JVal.vStr "old")])]⟩⟩]⟩⟩
    { task := taskHeaderConst
      associations := [[("clientName", some (JVal.vStr "c1")), ("appName", none),
        ("instanceId", none), ("backupsetId", none), ("subclientId", none)]]
      subTasks := [{ subTaskType := "RESTORE", operationType := "RESTORE",
                     restoreOptions :=
                       [("destination", JVal.vDict [("destClient", JVal.vStr "target")]),
                        ("overwriteFiles", JVal.vBool true)] }] }
    rfl).1 (JVal.vDict [("destClient", JVal.vStr "target")]) rfl rfl

/-- Claim C9: with a non-empty associations list, no RESTORE subtask and a
configured (truthy) destination override, `build_restore_payload` succeeds and
the payload's restore options are the override fields alone — every merged
entry comes from the override set, none from any subtask. -/
theorem claim_C9_no_restore_subtask_uses_overrides_only (ov : Overrides) (props : Props)
    (d : JVal) (hassoc : (associationsOf props).isEmpty = false)
    (hsubs : ∀ s ∈ subTasksOf props, isRestoreSub s = false)
    (hd : ov.destination = some d) (htd : truthy d = true) :
    build_restore_payload ov props = Except.ok
      { task := taskHeaderConst
        associations := normalize_associations (associationsOf props)
        subTasks := [{ subTaskType := "RESTORE", operationType := "RESTORE",
                       restoreOptions := apply_overrides ov [] }] }
    ∧ ∀ k v, (k, v) ∈ apply_overrides ov [] →
        (k = "destination" ∧ ov.destination = some v)
        ∨ (k = "overwriteFiles" ∧ ov.overwriteFiles = some v)
        ∨ (k = "restoreACLsType" ∧ ov.restoreACLsType = some v) := by
  constructor
  · rw [build_restore_payload_ok ov props hassoc, find_restore_opts_none _ hsubs]
  · intro k v hkv
    exact apply_overrides_nil_mem ov k v hkv

/-- Witness for C9: one BACKUP subtask (whose options must not appear), a
destination override; the payload's options are the single override entry. -/
theorem claim_C9_witness :
    build_restore_payload
        ⟨some (JVal.vDict [("destClient", JVal.vStr "t")]), none, none⟩
        ⟨some ⟨some [[("clientName", JVal.vStr "c1")]],
          some [⟨some ⟨some "BACKUP", none⟩, some ⟨some [("sched", JVal.vNum 1)]⟩⟩]⟩⟩ =
      Except.ok
        { task := taskHeaderConst
          associations := normalize_associations [[("clientName", JVal.vStr "c1")]]
          subTasks := [{ subTaskType := "RESTORE", operationType := "RESTORE",
                         restoreOptions := apply_overrides
                           ⟨some (JVal.vDict [("destClient", JVal.vStr "t")]), none, none⟩
                           [] }] } :=
  (claim_C9_no_restore_subtask_uses_overrides_only
    ⟨some (JVal.vDict [("destClient", JVal.vStr "t")]), none, none⟩
    ⟨some ⟨some [[("clientName", JVal.vStr "c1")]],
      some [⟨some ⟨some "BACKUP", none⟩, some ⟨some [("sched", JVal.vNum 1)]⟩⟩]⟩⟩
    (JVal.vDict [("destClient", JVal.vStr "t")])
    rfl (by decide) rfl rfl).1

/-- The allow-list of association fields kept by `normalize_associations`. -/
def allowedAssocKeys : List String :=
  ["clientName", "appName", "instanceId", "backupsetId", "subclientId"]

/-- A key outside the allow-list is absent from a normalized entry. -/
theorem normalizeAssoc_pyGet_of_not_allowed (a : Assoc) (k : String)
    (h : k ∉ allowedAssocKeys) : pyGet (normalizeAssoc a) k = none := by
  simp only [allowedAssocKeys, List.mem_cons, List.not_mem_nil, or_false, not_or] at h
  obtain ⟨h1, h2, h3, h4, h5⟩ := h
  simp only [normalizeAssoc, pyGet]
  rw [if_neg (fun he => h1 he.symm), if_neg (fun he => h2 he.symm),
    if_neg (fun he => h3 he.symm), if_neg (fun he => h4 he.symm),
    if_neg (fun he => h5 he.symm)]

/-- Claim C4: `normalize_associations` keeps length and order (entry `i` of
the output is the normalization of entry `i` of the input), each output entry
carries only allow-listed fields, all input fields outside the allow-list are
absent from the output entry, and each allow-listed field's value is the
input entry's value. -/
theorem claim_C4_normalize_associations_allowlist (l : List Assoc) :
    (normalize_associations l).length = l.length
    ∧ (∀ i : Nat, (normalize_associations l)[i]? = (l[i]?).map normalizeAssoc)
    ∧ (∀ a : Assoc, ∀ k : String, ∀ w : Option JVal,
        pyGet (normalizeAssoc a) k = some w → k ∈ allowedAssocKeys)
    ∧ (∀ a : Assoc, ∀ k : String, k ∉ allowedAssocKeys → pyGet (normalizeAssoc a) k = none)
    ∧ (∀ a : Assoc, ∀ k : String, k ∈ allowedAssocKeys →
        pyGet (normalizeAssoc a) k = some (pyGet a k)) := by
  refine ⟨List.length_map l normalizeAssoc, ?_, ?_, ?_, ?_⟩
  · intro i
    exact List.getElem?_map normalizeAssoc l i
  · intro a k w hw
    by_contra hk
    rw [normalizeAssoc_pyGet_of_not_allowed a k hk] at hw
    exact Option.noConfusion hw
  · intro a k hk
    exact normalizeAssoc_pyGet_of_not_allowed a k hk
  · intro a k hk
    simp only [allowedAssocKeys, List.mem_cons, List.not_mem_nil, or_false] at hk
    rcases hk with rfl | rfl | rfl | rfl | rfl <;> rfl

/-- Witness for C4: an input field outside the allow-list (`junkField`) is
dropped, while `clientName` is carried over. -/
theorem claim_C4_witness :
    pyGet (normalizeAssoc [("clientName", JVal.vStr "c1"), ("junkField", JVal.vNum 5)])
        "junkField" = none
    ∧ pyGet (normalizeAssoc [("clientName", JVal.vStr "c1"), ("junkField", JVal.vNum 5)])
        "clientName"
      = some (pyGet [("clientName", JVal.vStr "c1"), ("junkField", JVal.vNum 5)] "clientName") :=
  ⟨(claim_C4_normalize_associations_allowlist
      [[("clientName", JVal.vStr "c1"), ("junkField", JVal.vNum 5)]]).2.2.2.1
      [("clientName", JVal.vStr "c1"), ("junkField", JVal.vNum 5)] "junkField" (by decide),
   (claim_C4_normalize_associations_allowlist
      [[("clientName", JVal.vStr "c1"), ("junkField", JVal.vNum 5)]]).2.2.2.2
      [("clientName", JVal.vStr "c1"), ("junkField", JVal.vNum 5)] "clientName" (by decide)⟩

/-- Inversion of the scan's loop body: a kept entry has a numeric submit time
inside the trailing window and a user field containing the configured user. -/
theorem selectJob_some_inv (u : String) (now : Int) (e : Nat × JobDetails)
    (x : Nat × Int × Option String) (h : selectJob u now e = some x) :
    x.1 = e.1 ∧ submitted_of e.2 = some x.2.1
    ∧ x.2.1 ≥ now - RECENT_WINDOW_MINUTES * 60
    ∧ strContains (user_of e.2) u.toLower = true
    ∧ x.2.2 = e.2.status := by
  unfold selectJob at h
  cases hs : submitted_of e.2 with
  | none => rw [hs] at h; exact Option.noConfusion h
  | some t =>
    rw [hs] at h
    dsimp only [] at h
    split at h
    case isTrue hc =>
      cases Option.some.inj h
      exact ⟨rfl, rfl, hc.1, hc.2, rfl⟩
    case isFalse => exact Option.noConfusion h

/-- The scan's loop body drops an entry whose numeric submit time is out of
window or whose user field does not contain the configured user. -/
theorem selectJob_none_of_bad (u : String) (now : Int) (e : Nat × JobDetails)
    (hbad : ∀ t, submitted_of e.2 = some t →
      t < now - RECENT_WINDOW_MINUTES * 60 ∨ strContains (user_of e.2) u.toLower = false) :
    selectJob u now e = none := by
  unfold selectJob
  cases hs : submitted_of e.2 with
  | none => rfl
  | some t =>
    dsimp only []
    rcases hbad t hs with hlt | hc
    · rw [if_neg]
      rintro ⟨h1, _⟩
      exact absurd h1 (not_le.mpr hlt)
    · rw [if_neg]
      rintro ⟨_, h2⟩
      rw [hc] at h2
      exact absurd h2 (by decide)

/-- Claim C2: the recent-jobs scan excludes every entry whose submit time is
outside the trailing `RECENT_WINDOW_MINUTES` window or whose user field does
not match the configured user (case-insensitive containment, as the script
compares `USER.lower() in user.lower()`): adding such an entry anywhere in
the job list leaves the output unchanged, and every output row originates
from an in-window entry whose user field matches. -/
theorem claim_C2_scan_excludes_unmatched (u : String) (now : Int) :
    (∀ (jid : Nat) (d : JobDetails) (l₁ l₂ : List (Nat × JobDetails)),
      (∀ t, submitted_of d = some t →
        t < now - RECENT_WINDOW_MINUTES * 60 ∨ strContains (user_of d) u.toLower = false) →
      list_recent_jobs u now (l₁ ++ (jid, d) :: l₂) = list_recent_jobs u now (l₁ ++ l₂))
    ∧ (∀ (jobs : List (Nat × JobDetails)) (x : Nat × Int × Option String),
      x ∈ list_recent_jobs u now jobs →
      ∃ jid d, (jid, d) ∈ jobs ∧ x.1 = jid
        ∧ submitted_of d = some x.2.1
        ∧ x.2.1 ≥ now - RECENT_WINDOW_MINUTES * 60
        ∧ strContains (user_of d) u.toLower = true) := by
  constructor
  · intro jid d l₁ l₂ hbad
    exact list_recent_jobs_erase u now jid d l₁ l₂ (selectJob_none_of_bad u now (jid, d) hbad)
  · intro jobs x hx
    unfold list_recent_jobs at hx
    obtain ⟨e, he, hse⟩ := List.mem_filterMap.mp (List.mem_mergeSort.mp hx)
    obtain ⟨h1, h2, h3, h4, _⟩ := selectJob_some_inv u now e x hse
    exact ⟨e.1, e.2, by simpa using he, h1, h2, h3, h4⟩

/-- Witness for C2: an entry 900 seconds old (window is 180 seconds) is
dropped from the scan of a one-entry job list. -/
theorem claim_C2_witness :
    list_recent_jobs "admin" 1000
        ([] ++ (7, ⟨some (JVal.vNum 100), none, some "admin", none, none⟩) :: []) =
      list_recent_jobs "admin" 1000 ([] ++ []) :=
  (claim_C2_scan_excludes_unmatched "admin" 1000).1 7
    ⟨some (JVal.vNum 100), none, some "admin", none, none⟩ [] []
    (by
      intro t ht
      left
      rw [show submitted_of ⟨some (JVal.vNum 100), none, some "admin", none, none⟩
          = some 100 from rfl] at ht
      cases Option.some.inj ht
      decide)

/-- Claim C8: the rows the recent-jobs scan prints are ordered by
nondecreasing submit time (`recent.sort(key=lambda x: x[1])`). -/
theorem claim_C8_output_sorted_by_submit_time (u : String) (now : Int)
    (jobs : List (Nat × JobDetails)) :
    List.Pairwise (fun a b : Nat × Int × Option String => a.2.1 ≤ b.2.1)
      (list_recent_jobs u now jobs) := by
  unfold list_recent_jobs
  refine List.Pairwise.imp ?_ (List.sorted_mergeSort ?_ ?_ (jobs.filterMap (selectJob u now)))
  · exact fun hab => of_decide_eq_true hab
  · intro a b c hab hbc
    exact decide_eq_true (le_trans (of_decide_eq_true hab) (of_decide_eq_true hbc))
  · intro a b
    rcases le_total a.2.1 b.2.1 with h | h
    · simp [decide_eq_true h]
    · simp [decide_eq_true h]

/-- Claim C10: an entry whose submit-time field (after the
`submitTime`/`startTime` fallback) is absent or non-numeric is excluded from
the scan's output regardless of its user field: adding it anywhere in the job
list leaves the output unchanged. -/
theorem claim_C10_nonnumeric_submit_time_excluded (u : String) (now : Int) (jid : Nat)
    (d : JobDetails) (l₁ l₂ : List (Nat × JobDetails)) (h : submitted_of d = none) :
    list_recent_jobs u now (l₁ ++ (jid, d) :: l₂) = list_recent_jobs u now (l₁ ++ l₂) :=
  list_recent_jobs_erase u now jid d l₁ l₂
    (selectJob_none_of_bad u now (jid, d)
      (fun t ht => Option.noConfusion (h.symm.trans ht)))

/-- Witness for C10: an ISO-string submit time is dropped even with a
matching user and no explicit time bound. -/
theorem claim_C10_witness :
    list_recent_jobs "admin" 1000
        ([] ++ (3, ⟨some (JVal.vStr "2024-01-01T00:00:00Z"), none,
          some "admin", none, none⟩) :: []) =
      list_recent_jobs "admin" 1000 ([] ++ []) :=
  claim_C10_nonnumeric_submit_time_excluded "admin" 1000 3
    ⟨some (JVal.vStr "2024-01-01T00:00:00Z"), none, some "admin", none, none⟩ [] [] rfl

/-- `run_by_names` maps the loop body over all configured names. -/
theorem run_by_names_eq_map (env : PolicyEnv) (names : List String) :
    run_by_names env names = names.map (runOneName env) := by
  induction names with
  | nil => rfl
  | cons n rest ih => rw [run_by_names_cons, List.map_cons, ih]

/-- `run_by_task_ids` maps the loop body over all configured ids. -/
theorem run_by_task_ids_eq_map (env : TaskEnv) (ids : List Nat) :
    run_by_task_ids env ids = ids.map (runOneTask env) := by
  induction ids with
  | nil => rfl
  | cons i rest ih => rw [run_by_task_ids_cons, List.map_cons, ih]

/-- Claim C7: policy invocation processes every configured item — the event
list is the itemwise map of the loop body, so one item's outcome never
affects another's; a failed lookup yields a warning and the item is skipped;
an exception from the immediate-run action is caught and logged as an error
event, and processing of all later items is unaffected (each is again the
loop body applied to that item alone). -/
theorem claim_C7_per_item_isolation (envN : PolicyEnv) (names : List String)
    (envT : TaskEnv) (ids : List Nat) :
    run_by_names envN names = names.map (runOneName envN)
    ∧ run_by_task_ids envT ids = ids.map (runOneTask envT)
    ∧ (run_by_names envN names).length = names.length
    ∧ (run_by_task_ids envT ids).length = ids.length
    ∧ (∀ n, envN.hasPolicy n = false → runOneName envN n = RunEvent.warnMissing n)
    ∧ (∀ n msg, envN.hasPolicy n = true → envN.runNowByName n = Except.error msg →
        runOneName envN n = RunEvent.errRun n msg)
    ∧ (∀ tid msg, envT.getPolicy tid = Except.ok () →
        envT.runNowById tid = Except.error msg →
        runOneTask envT tid = RunEvent.errRun (toString tid) msg)
    ∧ (∀ tid msg, envT.getPolicy tid = Except.error msg →
        runOneTask envT tid = RunEvent.warnMissing (toString tid)) := by
  refine ⟨run_by_names_eq_map envN names, run_by_task_ids_eq_map envT ids, ?_, ?_, ?_, ?_, ?_, ?_⟩
  · rw [run_by_names_eq_map envN names, List.length_map]
  · rw [run_by_task_ids_eq_map envT ids, List.length_map]
  · intro n h
    unfold runOneName
    rw [if_pos h]
  · intro n msg h1 h2
    unfold runOneName
    rw [h1, h2]
    rfl
  · intro tid msg h1 h2
    unfold runOneTask
    rw [h1, h2]
  · intro tid msg h1
    unfold runOneTask
    rw [h1]

/-- Witness for C7: a missing policy is warned about and the run exception of
the second item is logged, each item contributing exactly one event. -/
theorem claim_C7_witness :
    run_by_names
        ⟨fun n => n == "p2",
         fun n => if n == "p2" then Except.error "boom" else Except.ok []⟩
        ["p1", "p2"] =
      [RunEvent.warnMissing "p1", RunEvent.errRun "p2" "boom"] := by
  have h := claim_C7_per_item_isolation
    ⟨fun n => n == "p2",
     fun n => if n == "p2" then Except.error "boom" else Except.ok []⟩
    ["p1", "p2"]
    ⟨fun _ => Except.error "absent", fun _ => Except.error "absent"⟩ []
  rw [h.1, List.map_cons, List.map_cons, List.map_nil,
    h.2.2.2.2.1 "p1" rfl, h.2.2.2.2.2.1 "p2" "boom" rfl rfl]
